import Mathlib

/-!
Verification of the Nosdesk outbound webhook delivery subsystem.

This file gives a shallow embedding of the webhook delivery core found in
`src/backend/src/services/webhooks/{delivery,service,signature,types}.rs` and
`src/backend/src/repository/webhooks.rs`, and proves properties of that
embedding.

Modelling conventions:
- JSON values (`serde_json::Value`) become the `Json` inductive below.
- Timestamps (`chrono::NaiveDateTime` / `DateTime<Utc>`) become abstract
  ticks of type `Nat`; only their ordering and equality matter to the code
  under study.  Their RFC3339 rendering is abstracted as `toString`.
- UUIDs become `String`.
- Byte strings become `List Nat` with every element below 256.
- Database rows become Lean structures; the row types live in the crates
  `models.rs`/`schema.rs`, which are not part of the studied sources, so the
  structures are reconstructed from the specification (section 3) and from
  every field access the studied sources make.  Diesel changeset semantics
  (a `None` field leaves the column untouched) are modelled by the
  `apply...Update` functions.
- The HMAC-SHA256 primitive used through the `ring` crate is implemented
  concretely (FIPS 180-4 / RFC 2104) so that signing facts can be checked by
  evaluation inside the kernel.
-/

set_option maxRecDepth 400000

namespace Nosdesk

/-! ## JSON values

Model of `serde_json::Value`.  Arrays and objects are given by mutually
inductive list types so that decidable equality can be derived; an object is
an ordered list of key/value pairs, matching the map iteration the code
performs. -/

mutual
/-- Model of a `serde_json::Value`. -/
inductive Json where
  | null
  | bool (b : Bool)
  | num (n : Int)
  | str (s : String)
  | arr (elems : JsonArray)
  | obj (entries : JsonObject)
deriving DecidableEq
/-- A JSON array as a bespoke list of values. -/
inductive JsonArray where
  | nil
  | cons (hd : Json) (tl : JsonArray)
deriving DecidableEq
/-- A JSON object as an ordered association list of key/value pairs. -/
inductive JsonObject where
  | nil
  | cons (key : String) (val : Json) (tl : JsonObject)
deriving DecidableEq
end

/-- The entries of a JSON object, as an ordinary list of pairs. -/
def JsonObject.toList : JsonObject → List (String × Json)
  | .nil => []
  | .cons k v t => (k, v) :: t.toList

/-- Model of `Value::as_str`: the string payload when the value is a string. -/
def Json.asStr : Json → Option String
  | .str s => some s
  | _ => none

/-- Model of `Value::as_object().is_some()`. -/
def Json.isObj : Json → Bool
  | .obj _ => true
  | _ => false

/-- Top-level entries of a JSON value: the entries when it is an object,
nothing otherwise (model of `Value::as_object` flattened to a list). -/
def Json.entries : Json → List (String × Json)
  | .obj o => o.toList
  | _ => []

/-! ## JSON rendering

Model of `serde_json::to_string`, used by the worker to produce the exact
request body bytes that get signed.  String escaping follows serde_json:
quote, backslash and control characters are escaped, everything else is
emitted verbatim. -/

/-- The lowercase hexadecimal digit character for a value below 16,
computed from the code point (48 is the zero digit, 97 is the letter a). -/
def hexDigitChar (n : Nat) : Char :=
  if n < 10 then Char.ofNat (48 + n) else Char.ofNat (87 + n)

/-- Escape one character of a JSON string per serde_json: quote and
backslash, the short control escapes, and a u-escape for the remaining
control characters. -/
def escapeJsonChar (c : Char) : List Char :=
  let n := c.toNat
  if n = 34 then ['\\', '"']
  else if n = 92 then ['\\', '\\']
  else if n = 8 then ['\\', 'b']
  else if n = 12 then ['\\', 'f']
  else if n = 10 then ['\\', 'n']
  else if n = 13 then ['\\', 'r']
  else if n = 9 then ['\\', 't']
  else if n < 32 then
    '\\' :: 'u' :: '0' :: '0' :: hexDigitChar (n / 16) :: [hexDigitChar (n % 16)]
  else [c]

/-- Escape a JSON string body per serde_json. -/
def escapeJsonString (s : String) : String :=
  String.mk (s.data.flatMap escapeJsonChar)

/-- Render a quoted JSON string literal. -/
def renderJsonString (s : String) : String :=
  "\"" ++ escapeJsonString s ++ "\""

mutual
/-- Render a JSON value to its serde_json wire text. -/
def renderJson : Json → String
  | .null => "null"
  | .bool b => if b then "true" else "false"
  | .num n => toString n
  | .str s => renderJsonString s
  | .arr es => "[" ++ renderJsonArray es ++ "]"
  | .obj fs => "\x7b" ++ renderJsonObject fs ++ "\x7d"
/-- Render the comma-separated elements of a JSON array. -/
def renderJsonArray : JsonArray → String
  | .nil => ""
  | .cons x .nil => renderJson x
  | .cons x (.cons y t) => renderJson x ++ "," ++ renderJsonArray (.cons y t)
/-- Render the comma-separated entries of a JSON object. -/
def renderJsonObject : JsonObject → String
  | .nil => ""
  | .cons k v .nil => renderJsonString k ++ ":" ++ renderJson v
  | .cons k v (.cons k2 v2 t) =>
      renderJsonString k ++ ":" ++ renderJson v ++ "," ++ renderJsonObject (.cons k2 v2 t)
end

/-- UTF-8 encode one character (RFC 3629), as byte values. -/
def utf8Char (c : Char) : List Nat :=
  let n := c.toNat
  if n < 0x80 then [n]
  else if n < 0x800 then [0xc0 ||| (n >>> 6), 0x80 ||| (n &&& 0x3f)]
  else if n < 0x10000 then
    [0xe0 ||| (n >>> 12), 0x80 ||| ((n >>> 6) &&& 0x3f), 0x80 ||| (n &&& 0x3f)]
  else
    [0xf0 ||| (n >>> 18), 0x80 ||| ((n >>> 12) &&& 0x3f),
     0x80 ||| ((n >>> 6) &&& 0x3f), 0x80 ||| (n &&& 0x3f)]

/-- UTF-8 encode a string, as byte values (model of `str::as_bytes`). -/
def utf8Bytes (s : String) : List Nat :=
  s.data.flatMap utf8Char

/-! ## SHA-256 and HMAC-SHA256

Concrete implementation of the primitive the code reaches through
`ring::hmac` (FIPS 180-4, RFC 2104).  Words are naturals reduced modulo
`2 ^ 32`; bytes are naturals below 256. -/

/-- Reduce a natural to a 32-bit word. -/
def mod32 (n : Nat) : Nat := n % 4294967296

/-- Right rotation of a 32-bit word by `k` bits. -/
def rotr32 (k x : Nat) : Nat := mod32 ((x >>> k) ||| (x <<< (32 - k)))

/-- The SHA-256 round constants (FIPS 180-4 section 4.2.2, in decimal). -/
def K256 : List Nat :=
  [1116352408, 1899447441, 3049323471, 3921009573, 961987163,
   1508970993, 2453635748, 2870763221, 3624381080, 310598401,
   607225278, 1426881987, 1925078388, 2162078206, 2614888103,
   3248222580, 3835390401, 4022224774, 264347078, 604807628,
   770255983, 1249150122, 1555081692, 1996064986, 2554220882,
   2821834349, 2952996808, 3210313671, 3336571891, 3584528711,
   113926993, 338241895, 666307205, 773529912, 1294757372,
   1396182291, 1695183700, 1986661051, 2177026350, 2456956037,
   2730485921, 2820302411, 3259730800, 3345764771, 3516065817,
   3600352804, 4094571909, 275423344, 430227734, 506948616,
   659060556, 883997877, 958139571, 1322822218, 1537002063,
   1747873779, 1955562222, 2024104815, 2227730452, 2361852424,
   2428436474, 2756734187, 3204031479, 3329325298]

/-- The SHA-256 initial hash state (FIPS 180-4 section 5.3.3, in decimal). -/
def H256 : List Nat :=
  [1779033703, 3144134277, 1013904242, 2773480762,
   1359893119, 2600822924, 528734635, 1541459225]

/-- Big-endian byte decomposition of a value into `n` bytes. -/
def toBytesBE : Nat → Nat → List Nat
  | 0, _ => []
  | n + 1, v => toBytesBE n (v / 256) ++ [v % 256]

/-- Group bytes into big-endian 32-bit words. -/
def bytesToWords : List Nat → List Nat
  | a :: b :: c :: d :: rest => (((a * 256 + b) * 256 + c) * 256 + d) :: bytesToWords rest
  | _ => []

/-- SHA-256 small sigma 0. -/
def ssig0 (x : Nat) : Nat := rotr32 7 x ^^^ rotr32 18 x ^^^ (x >>> 3)

/-- SHA-256 small sigma 1. -/
def ssig1 (x : Nat) : Nat := rotr32 17 x ^^^ rotr32 19 x ^^^ (x >>> 10)

/-- SHA-256 big sigma 0. -/
def bsig0 (x : Nat) : Nat := rotr32 2 x ^^^ rotr32 13 x ^^^ rotr32 22 x

/-- SHA-256 big sigma 1. -/
def bsig1 (x : Nat) : Nat := rotr32 6 x ^^^ rotr32 11 x ^^^ rotr32 25 x

/-- SHA-256 choice function. -/
def chF (x y z : Nat) : Nat := (x &&& y) ^^^ ((x ^^^ 0xffffffff) &&& z)

/-- SHA-256 majority function. -/
def majF (x y z : Nat) : Nat := (x &&& y) ^^^ (x &&& z) ^^^ (y &&& z)

/-- Extend the message schedule; the accumulator holds the schedule so far,
most recent word first. -/
def extendSchedule : Nat → List Nat → List Nat
  | 0, acc => acc
  | n + 1, acc =>
      extendSchedule n
        (mod32 (ssig1 (acc.getD 1 0) + acc.getD 6 0 + ssig0 (acc.getD 14 0) + acc.getD 15 0) :: acc)

/-- The 64-word message schedule of one 64-byte block. -/
def messageSchedule (block : List Nat) : List Nat :=
  (extendSchedule 48 (bytesToWords block).reverse).reverse

/-- One SHA-256 compression round on the 8-word working state. -/
def roundStep (st : List Nat) (kw : Nat × Nat) : List Nat :=
  let a := st.getD 0 0
  let b := st.getD 1 0
  let c := st.getD 2 0
  let d := st.getD 3 0
  let e := st.getD 4 0
  let f := st.getD 5 0
  let g := st.getD 6 0
  let h := st.getD 7 0
  let t1 := mod32 (h + bsig1 e + chF e f g + kw.1 + kw.2)
  let t2 := mod32 (bsig0 a + majF a b c)
  [mod32 (t1 + t2), a, b, c, mod32 (d + t1), e, f, g]

/-- SHA-256 compression of one block into the running hash state. -/
def compress (hstate block : List Nat) : List Nat :=
  let final := (K256.zip (messageSchedule block)).foldl roundStep hstate
  List.zipWith (fun x y => mod32 (x + y)) hstate final

/-- SHA-256 message padding: a 1 bit, zeros, and the 64-bit bit length. -/
def padMessage (msg : List Nat) : List Nat :=
  let len := msg.length
  let zeros := (64 - ((len + 9) % 64)) % 64
  msg ++ [0x80] ++ List.replicate zeros 0 ++ toBytesBE 8 (len * 8)

/-- Split a byte list into 64-byte blocks (fuel-driven). -/
def splitBlocksAux : Nat → List Nat → List (List Nat)
  | 0, _ => []
  | _, [] => []
  | n + 1, l => l.take 64 :: splitBlocksAux n (l.drop 64)

/-- Split a byte list into 64-byte blocks. -/
def splitBlocks (l : List Nat) : List (List Nat) := splitBlocksAux l.length l

/-- SHA-256 of a byte list, as the 32 digest bytes. -/
def sha256 (msg : List Nat) : List Nat :=
  ((splitBlocks (padMessage msg)).foldl compress H256).flatMap (toBytesBE 4)

/-- HMAC-SHA256 (RFC 2104) with a 64-byte block size. -/
def hmacSha256 (key msg : List Nat) : List Nat :=
  let key0 := if key.length > 64 then sha256 key else key
  let keyPadded := key0 ++ List.replicate (64 - key0.length) 0
  let ipad := keyPadded.map (fun b => b ^^^ 0x36)
  let opad := keyPadded.map (fun b => b ^^^ 0x5c)
  sha256 (opad ++ sha256 (ipad ++ msg))

/-- Lowercase hexadecimal characters of a byte list (model of `hex::encode`). -/
def hexChars : List Nat → List Char
  | [] => []
  | b :: bs => hexDigitChar (b / 16) :: hexDigitChar (b % 16) :: hexChars bs

/-- Lowercase hexadecimal rendering of a byte list (model of `hex::encode`). -/
def hexEncode (bs : List Nat) : String := String.mk (hexChars bs)

/-! ## SignatureService

Model of `services/webhooks/signature.rs`.  Payload and secret are byte
lists (the UTF-8 bytes of the Rust strings). -/

/-- Model of `sign_payload`: HMAC-SHA256 of the payload bytes keyed by the
secret bytes, rendered as a `sha256=` prefixed lowercase hex string. -/
def sign_payload (payload secret : List Nat) : String :=
  "sha256=" ++ hexEncode (hmacSha256 secret payload)

/-- Model of `verify_signature`: recompute the signature and compare.  The
comparison the code performs is byte equality of the two strings (in
constant time, a timing property outside this model). -/
def verify_signature (payload secret : List Nat) (signature : String) : Bool :=
  sign_payload payload secret == signature

/-! ## Data model

Row and task types.  `models.rs` and `schema.rs` are external to the studied
sources, so the row shapes are modelled from the specification (section 3,
Data Model) together with every field the studied sources read or write. -/

/-- Modelled from the spec: a registered webhook row (section 3), with the
fields the studied sources use: numeric id, external uuid, name, target url,
signing secret, subscribed event array (nullable elements, as in the diesel
schema), optional custom header map, enabled flag, consecutive failure
count, optional disabled reason and last trigger time. -/
structure Webhook where
  id : Int
  uuid : String
  name : String
  url : String
  secret : String
  events : List (Option String)
  headers : Option Json
  enabled : Bool
  failure_count : Int
  disabled_reason : Option String
  last_triggered_at : Option Nat
deriving DecidableEq

/-- Modelled from the spec: one delivery attempt row (section 3), with the
fields the studied sources use.  The row uuid is assigned by the store on
insert; `delivered_at` and `next_retry_at` start null and the response
fields start unset. -/
structure WebhookDelivery where
  id : Int
  uuid : String
  webhook_id : Int
  event_type : String
  payload : Json
  request_headers : Option Json
  attempt_number : Int
  response_status : Option Int
  response_body : Option String
  duration_ms : Option Int
  error_message : Option String
  delivered_at : Option Nat
  next_retry_at : Option Nat
deriving DecidableEq

/-- The payload envelope sent to external endpoints, from
`services/webhooks/types.rs`. -/
structure WebhookPayload where
  id : String
  event_type : String
  timestamp : Nat
  data : Json
deriving DecidableEq

/-- A delivery task sent to the worker, from
`services/webhooks/delivery.rs`. -/
structure DeliveryTask where
  webhook_id : Int
  webhook_url : String
  webhook_secret : String
  webhook_headers : Option Json
  payload : WebhookPayload
  attempt : Int
deriving DecidableEq

/-- The insertable delivery record, with exactly the five fields the worker
fills in `create_delivery` (delivery.rs lines 109 to 122). -/
structure NewWebhookDelivery where
  webhook_id : Int
  event_type : String
  payload : Json
  request_headers : Option Json
  attempt_number : Int
deriving DecidableEq

/-- Modelled from the spec: the diesel changeset for a delivery row; a
`none` field leaves the column untouched.  The nested option on
`next_retry_at` reflects that the worker writes both a time and an explicit
null there. -/
structure WebhookDeliveryUpdate where
  response_status : Option Int := none
  response_body : Option String := none
  duration_ms : Option Int := none
  error_message : Option String := none
  delivered_at : Option Nat := none
  next_retry_at : Option (Option Nat) := none
deriving DecidableEq

/-- Modelled from the spec: the diesel changeset for a webhook row; a
`none` field leaves the column untouched.  The nested option on
`disabled_reason` reflects that the worker writes both a string and an
explicit null there. -/
structure WebhookUpdate where
  name : Option String := none
  enabled : Option Bool := none
  failure_count : Option Int := none
  disabled_reason : Option (Option String) := none
  last_triggered_at : Option Nat := none
deriving DecidableEq

/-- Apply a delivery changeset to a row, diesel style: `none` keeps the
stored value, `some` overwrites it. -/
def applyDeliveryUpdate (d : WebhookDelivery) (u : WebhookDeliveryUpdate) : WebhookDelivery :=
  { d with
    response_status := match u.response_status with | none => d.response_status | some v => some v
    response_body := match u.response_body with | none => d.response_body | some v => some v
    duration_ms := match u.duration_ms with | none => d.duration_ms | some v => some v
    error_message := match u.error_message with | none => d.error_message | some v => some v
    delivered_at := match u.delivered_at with | none => d.delivered_at | some v => some v
    next_retry_at := match u.next_retry_at with | none => d.next_retry_at | some v => v }

/-- Apply a webhook changeset to a row, diesel style: `none` keeps the
stored value, `some` overwrites it. -/
def applyWebhookUpdate (w : Webhook) (u : WebhookUpdate) : Webhook :=
  { w with
    name := match u.name with | none => w.name | some v => v
    enabled := match u.enabled with | none => w.enabled | some v => v
    failure_count := match u.failure_count with | none => w.failure_count | some v => v
    disabled_reason := match u.disabled_reason with | none => w.disabled_reason | some v => v
    last_triggered_at := match u.last_triggered_at with | none => w.last_triggered_at | some v => v }

/-- Serde serialization of the payload envelope (derive order: id,
event_type, timestamp, data); the timestamp renders through the abstract
tick rendering. -/
def payloadToJson (p : WebhookPayload) : Json :=
  Json.obj
    (.cons ("id") (.str p.id)
      (.cons ("event_type") (.str p.event_type)
        (.cons ("timestamp") (.str (toString p.timestamp))
          (.cons ("data") p.data .nil))))

/-! ## Repository

Model of `repository/webhooks.rs`.  The database is a list of rows. -/

/-- Model of `get_webhooks_for_event`: enabled webhooks whose subscribed
event array contains the given event type (webhooks.rs lines 23 to 32). -/
def get_webhooks_for_event (db : List Webhook) (event_type : String) : List Webhook :=
  db.filter (fun w => w.enabled && w.events.contains (some event_type))

/-- Model of `get_webhook_by_id`: first row with the given id
(webhooks.rs lines 60 to 68). -/
def get_webhook_by_id (db : List Webhook) (webhook_id : Int) : Option Webhook :=
  db.find? (fun w => w.id == webhook_id)

/-- Model of `create_delivery` (webhooks.rs lines 114 to 122): insert the
new record; the store assigns the row id and row uuid and the remaining
columns start unset (delivered_at and next_retry_at null). -/
def create_delivery (rowId : Int) (rowUuid : String) (nd : NewWebhookDelivery) : WebhookDelivery :=
  { id := rowId
    uuid := rowUuid
    webhook_id := nd.webhook_id
    event_type := nd.event_type
    payload := nd.payload
    request_headers := nd.request_headers
    attempt_number := nd.attempt_number
    response_status := none
    response_body := none
    duration_ms := none
    error_message := none
    delivered_at := none
    next_retry_at := none }

/-- Sort key used by the pending-retries query: the retry time (every
selected row has one). -/
def retryKey (d : WebhookDelivery) : Nat := d.next_retry_at.getD 0

/-- Insert a row into a list sorted ascending by retry time. -/
def insertByRetryKey (d : WebhookDelivery) : List WebhookDelivery → List WebhookDelivery
  | [] => [d]
  | x :: xs =>
      if retryKey d ≤ retryKey x then d :: x :: xs else x :: insertByRetryKey d xs

/-- Sort rows ascending by retry time (model of the order-by clause). -/
def sortByRetryKey : List WebhookDelivery → List WebhookDelivery
  | [] => []
  | x :: xs => insertByRetryKey x (sortByRetryKey xs)

/-- Model of `get_pending_retries` (webhooks.rs lines 152 to 163): rows not
yet delivered whose retry time is set and has passed, ordered ascending by
retry time, at most 100 of them. -/
def get_pending_retries (db : List WebhookDelivery) (now : Nat) : List WebhookDelivery :=
  (sortByRetryKey (db.filter (fun d =>
    d.delivered_at.isNone && d.next_retry_at.isSome && decide (retryKey d ≤ now)))).take 100

/-! ## Delivery worker

Model of `services/webhooks/delivery.rs`. -/

/-- Maximum number of delivery attempts (delivery.rs line 19). -/
def MAX_RETRIES : Int := 5

/-- Seconds of delay before the first retry (delivery.rs line 22). -/
def INITIAL_RETRY_DELAY_SECS : Nat := 1

/-- Upper bound on the retry delay, in seconds (delivery.rs line 25). -/
def MAX_RETRY_DELAY_SECS : Nat := 3600

/-- Consecutive failures before a webhook is auto-disabled
(delivery.rs line 31). -/
def AUTO_DISABLE_THRESHOLD : Int := 10

/-- The retry delay in seconds computed in `handle_failure` (delivery.rs
lines 225 to 227): exponential base doubling with the attempt number, plus
a jitter drawn from the random word, capped at one hour. -/
def retryDelaySecs (attempt : Int) (rand : Nat) : Nat :=
  let base_delay := INITIAL_RETRY_DELAY_SECS * 2 ^ (attempt - 1).toNat
  let jitter := rand % (base_delay / 2 + 1)
  min (base_delay + jitter) MAX_RETRY_DELAY_SECS

/-- Model of `handle_success` (delivery.rs lines 167 to 210): the changeset
pair written after a 2xx response. -/
def handle_success (now : Nat) (status : Int) (response_body : Option String)
    (duration_ms : Int) : WebhookDeliveryUpdate × WebhookUpdate :=
  ({ response_status := some status
     response_body := response_body
     duration_ms := some duration_ms
     delivered_at := some now
     next_retry_at := some none },
   { last_triggered_at := some now
     failure_count := some 0
     disabled_reason := some none })

/-- Model of `handle_failure` (delivery.rs lines 213 to 281): the changeset
pair written after a failed attempt, for the webhook in its current state.
A retry is scheduled only below the attempt cap; the failure count rises by
one and reaching the threshold disables the webhook with a reason. -/
def handle_failure (w : Webhook) (attempt status : Int) (response_body : Option String)
    (duration_ms : Int) (error_message : Option String) (now rand : Nat) :
    WebhookDeliveryUpdate × WebhookUpdate :=
  let next_retry : Option Nat :=
    if attempt < MAX_RETRIES then some (now + retryDelaySecs attempt rand) else none
  let deliveryUp : WebhookDeliveryUpdate :=
    { response_status := some status
      response_body := response_body
      duration_ms := some duration_ms
      error_message := error_message
      next_retry_at := some next_retry }
  let new_failure_count := w.failure_count + 1
  let base : WebhookUpdate := { failure_count := some new_failure_count }
  let webhookUp : WebhookUpdate :=
    if new_failure_count ≥ AUTO_DISABLE_THRESHOLD then
      { base with
        enabled := some false
        disabled_reason :=
          some (some ("Auto-disabled after " ++ toString new_failure_count
            ++ " consecutive failures")) }
    else base
  (deliveryUp, webhookUp)

/-- Outcome of the HTTP send in `deliver`: either a response with a status
and optional body text, or a transport error with a message. -/
inductive HttpResult where
  | response (status : Int) (body : Option String)
  | transportError (message : String)
deriving DecidableEq

/-- The outcome classification of `deliver` (delivery.rs lines 128 to 161):
a status inside [200, 300) goes to the success handler, any other status
goes to the failure handler, and a transport error goes to the failure
handler with status 0 and the error message. -/
def deliverUpdates (task : DeliveryTask) (w : Webhook) (result : HttpResult)
    (duration_ms : Int) (now rand : Nat) : WebhookDeliveryUpdate × WebhookUpdate :=
  match result with
  | .response status body =>
      if 200 ≤ status ∧ status < 300 then
        handle_success now status body duration_ms
      else
        handle_failure w task.attempt status body duration_ms none now rand
  | .transportError e =>
      handle_failure w task.attempt 0 none duration_ms (some e) now rand

/-- The insertable record `deliver` persists before sending (delivery.rs
lines 109 to 122): the serialized envelope, the attempt number, and the
sanitized headers with the signature value redacted. -/
def newDeliveryFor (task : DeliveryTask) : NewWebhookDelivery :=
  { webhook_id := task.webhook_id
    event_type := task.payload.event_type
    payload := payloadToJson task.payload
    request_headers :=
      some (Json.obj
        (.cons ("X-Nosdesk-Signature") (.str ("sha256=***"))
          (.cons ("X-Nosdesk-Event") (.str task.payload.event_type)
            (.cons ("X-Nosdesk-Delivery") (.str task.payload.id) .nil))))
    attempt_number := task.attempt }

/-- The custom headers `deliver` adds from the webhook configuration
(delivery.rs lines 94 to 102): iterate the top-level object entries and add
every entry whose value is a string. -/
def customHeaderList : JsonObject → List (String × String)
  | .nil => []
  | .cons k v t =>
      match v with
      | .str s => (k, s) :: customHeaderList t
      | _ => customHeaderList t

/-- The custom headers contributed by a webhook header configuration: the
string-valued entries when the value is an object, nothing otherwise. -/
def customHeaders : Option Json → List (String × String)
  | none => []
  | some (Json.obj o) => customHeaderList o
  | some _ => []

/-- The headers of the outgoing POST as `deliver` builds them (delivery.rs
lines 85 to 102): the four fixed headers, then the custom headers from the
webhook configuration. -/
def buildRequestHeaders (task : DeliveryTask) (signature : String) : List (String × String) :=
  [("Content-Type", "application/json"),
   ("X-Nosdesk-Signature", signature),
   ("X-Nosdesk-Event", task.payload.event_type),
   ("X-Nosdesk-Delivery", task.payload.id)]
  ++ customHeaders task.webhook_headers

/-- The serialized body of the outgoing POST (delivery.rs line 78). -/
def deliverBody (task : DeliveryTask) : String :=
  renderJson (payloadToJson task.payload)

/-- The full outgoing header list of `deliver`, with the signature computed
over the exact body bytes as in delivery.rs line 82. -/
def deliverRequestHeaders (task : DeliveryTask) : List (String × String) :=
  buildRequestHeaders task
    (sign_payload (utf8Bytes (deliverBody task)) (utf8Bytes task.webhook_secret))

/-! ## Event types

Model of `services/webhooks/types.rs`.  The domain event enum lives in
`handlers/sse.rs`, outside the studied sources; its variant list is fully
determined by the exhaustive match in `from_sse_event`, and its per-variant
data is opaque to this subsystem (section 3 of the spec), so the variants
are modelled as bare tags and the serde serialization of an event is passed
around as a function parameter. -/

/-- Modelled from the spec: the domain event stream variants, exactly the
tags the exhaustive match in `from_sse_event` distinguishes; the last three
are internal events never exposed to webhooks. -/
inductive TicketEvent where
  | TicketCreated
  | TicketUpdated
  | TicketDeleted
  | CommentAdded
  | CommentDeleted
  | AttachmentAdded
  | AttachmentDeleted
  | DeviceCreated
  | DeviceLinked
  | DeviceUnlinked
  | DeviceUpdated
  | ProjectAssigned
  | ProjectUnassigned
  | TicketLinked
  | TicketUnlinked
  | DocumentationCreated
  | DocumentationUpdated
  | UserCreated
  | UserUpdated
  | UserDeleted
  | Heartbeat
  | ViewerCountChanged
  | NotificationReceived
deriving DecidableEq

/-- The webhook event types (types.rs lines 12 to 48). -/
inductive WebhookEventType where
  | TicketCreated
  | TicketUpdated
  | TicketDeleted
  | CommentAdded
  | CommentDeleted
  | AttachmentAdded
  | AttachmentDeleted
  | DeviceCreated
  | DeviceLinked
  | DeviceUnlinked
  | DeviceUpdated
  | ProjectAssigned
  | ProjectUnassigned
  | TicketLinked
  | TicketUnlinked
  | DocumentationCreated
  | DocumentationUpdated
  | UserCreated
  | UserUpdated
  | UserDeleted
deriving DecidableEq

/-- Model of `WebhookEventType::as_str` (types.rs lines 52 to 75). -/
def WebhookEventType.as_str : WebhookEventType → String
  | .TicketCreated => "ticket.created"
  | .TicketUpdated => "ticket.updated"
  | .TicketDeleted => "ticket.deleted"
  | .CommentAdded => "comment.added"
  | .CommentDeleted => "comment.deleted"
  | .AttachmentAdded => "attachment.added"
  | .AttachmentDeleted => "attachment.deleted"
  | .DeviceCreated => "device.created"
  | .DeviceLinked => "device.linked"
  | .DeviceUnlinked => "device.unlinked"
  | .DeviceUpdated => "device.updated"
  | .ProjectAssigned => "project.assigned"
  | .ProjectUnassigned => "project.unassigned"
  | .TicketLinked => "ticket.linked"
  | .TicketUnlinked => "ticket.unlinked"
  | .DocumentationCreated => "documentation.created"
  | .DocumentationUpdated => "documentation.updated"
  | .UserCreated => "user.created"
  | .UserUpdated => "user.updated"
  | .UserDeleted => "user.deleted"

/-- Model of `WebhookEventType::from_sse_event` (types.rs lines 132 to 159):
the webhook event type of a domain event, none for the three internal
variants. -/
def WebhookEventType.from_sse_event : TicketEvent → Option WebhookEventType
  | .TicketCreated => some .TicketCreated
  | .TicketUpdated => some .TicketUpdated
  | .TicketDeleted => some .TicketDeleted
  | .CommentAdded => some .CommentAdded
  | .CommentDeleted => some .CommentDeleted
  | .AttachmentAdded => some .AttachmentAdded
  | .AttachmentDeleted => some .AttachmentDeleted
  | .DeviceCreated => some .DeviceCreated
  | .DeviceLinked => some .DeviceLinked
  | .DeviceUnlinked => some .DeviceUnlinked
  | .DeviceUpdated => some .DeviceUpdated
  | .ProjectAssigned => some .ProjectAssigned
  | .ProjectUnassigned => some .ProjectUnassigned
  | .TicketLinked => some .TicketLinked
  | .TicketUnlinked => some .TicketUnlinked
  | .DocumentationCreated => some .DocumentationCreated
  | .DocumentationUpdated => some .DocumentationUpdated
  | .UserCreated => some .UserCreated
  | .UserUpdated => some .UserUpdated
  | .UserDeleted => some .UserDeleted
  | .Heartbeat => none
  | .ViewerCountChanged => none
  | .NotificationReceived => none

/-! ## Webhook service

Model of `services/webhooks/service.rs`. -/

/-- The attempt-1 delivery task `process_event` builds for one matching
webhook and the shared envelope (the loop body of service.rs lines 123 to
131). -/
def eventTaskFor (payload : WebhookPayload) (webhook : Webhook) : DeliveryTask :=
  { webhook_id := webhook.id
    webhook_url := webhook.url
    webhook_secret := webhook.secret
    webhook_headers := webhook.headers
    payload := payload
    attempt := 1 }

/-- Model of `process_event` (service.rs lines 92 to 143): look up the
enabled webhooks subscribed to the mapped event type; if any, build one
shared envelope (fresh uuid, the event type string, the current time, the
serialized event) and one attempt-1 task per matching webhook.  The serde
serialization of the event and the fresh uuid are parameters of the
model. -/
def process_event (serializeEvent : TicketEvent → Json) (db : List Webhook)
    (uid : String) (now : Nat) (event_type : WebhookEventType) (event : TicketEvent) :
    List DeliveryTask :=
  let event_type_str := event_type.as_str
  let webhooks := get_webhooks_for_event db event_type_str
  if webhooks.isEmpty then []
  else
    let payload : WebhookPayload :=
      { id := uid
        event_type := event_type_str
        timestamp := now
        data := serializeEvent event }
    webhooks.map (eventTaskFor payload)

/-- Model of the event listener body (service.rs lines 68 to 88): map the
domain event to a webhook event type and process it, or produce nothing
when the event is not exposed to webhooks. -/
def listenerTasks (serializeEvent : TicketEvent → Json) (db : List Webhook)
    (uid : String) (now : Nat) (event : TicketEvent) : List DeliveryTask :=
  match WebhookEventType.from_sse_event event with
  | some event_type => process_event serializeEvent db uid now event_type event
  | none => []

/-- The retry task `process_retries` builds for one pending row
(service.rs lines 185 to 197): the envelope takes the row uuid as id, the
stored event type, the current time as timestamp and the stored payload
value as data, and the attempt number is the previous one plus one. -/
def makeRetryTask (webhook : Webhook) (delivery : WebhookDelivery) (now : Nat) : DeliveryTask :=
  { webhook_id := webhook.id
    webhook_url := webhook.url
    webhook_secret := webhook.secret
    webhook_headers := webhook.headers
    payload :=
      { id := delivery.uuid
        event_type := delivery.event_type
        timestamp := now
        data := delivery.payload }
    attempt := delivery.attempt_number + 1 }

/-- Model of `process_retries` (service.rs lines 161 to 219): for every
pending retry, reload the webhook; skip it when it is missing or disabled,
otherwise build the retry task. -/
def process_retries (webhooks : List Webhook) (deliveries : List WebhookDelivery)
    (now : Nat) : List DeliveryTask :=
  (get_pending_retries deliveries now).filterMap (fun delivery =>
    match get_webhook_by_id webhooks delivery.webhook_id with
    | some webhook =>
        if webhook.enabled then some (makeRetryTask webhook delivery now) else none
    | none => none)

/-! ## Webhook health over a sequence of attempts

The per-webhook state machine induced by the worker: each completed attempt
applies either the success changeset or the failure changeset to the
webhook row. -/

/-- One completed delivery attempt for a webhook, with the data the
changeset depends on. -/
inductive AttemptOutcome where
  | success (now : Nat) (status : Int) (body : Option String) (duration_ms : Int)
  | failure (now : Nat) (rand : Nat) (attempt status : Int) (body : Option String)
      (duration_ms : Int) (error_message : Option String)
deriving DecidableEq

/-- Whether the attempt failed. -/
def AttemptOutcome.isFailure : AttemptOutcome → Bool
  | .success _ _ _ _ => false
  | .failure _ _ _ _ _ _ _ => true

/-- The webhook row after the worker records one attempt outcome. -/
def webhookAfterAttempt (w : Webhook) : AttemptOutcome → Webhook
  | .success now status body dur => applyWebhookUpdate w (handle_success now status body dur).2
  | .failure now rand attempt status body dur err =>
      applyWebhookUpdate w (handle_failure w attempt status body dur err now rand).2

/-- The webhook row after a sequence of recorded attempt outcomes. -/
def runAttempts (w : Webhook) (os : List AttemptOutcome) : Webhook :=
  os.foldl webhookAfterAttempt w

/-- The persisted row and updated webhook row produced by one full pass of
`deliver` for a task, given the webhook state, the row identity the store
assigns, and the HTTP outcome. -/
def deliverEffect (task : DeliveryTask) (w : Webhook) (rowId : Int) (rowUuid : String)
    (result : HttpResult) (duration_ms : Int) (now rand : Nat) : WebhookDelivery × Webhook :=
  let ups := deliverUpdates task w result duration_ms now rand
  (applyDeliveryUpdate (create_delivery rowId rowUuid (newDeliveryFor task)) ups.1,
   applyWebhookUpdate w ups.2)

/-- Whether the HTTP outcome counts as a success in `deliver`: a response
with a status inside [200, 300). -/
def HttpResult.isSuccess : HttpResult → Bool
  | .response status _ => decide (200 ≤ status ∧ status < 300)
  | .transportError _ => false

/-! ## Concrete example data used by the evaluation theorems -/

/-- A concrete enabled webhook subscribed to ticket creation only. -/
def wExample : Webhook :=
  { id := 1
    uuid := "wh-uuid-1"
    name := "Example hook"
    url := "https://example.com/hook"
    secret := "whsec_example"
    events := [some ("ticket.created")]
    headers := none
    enabled := true
    failure_count := 0
    disabled_reason := none
    last_triggered_at := none }

/-- A concrete custom header configuration containing the three reserved
names next to an ordinary header and a non-string entry. -/
def headersExample : Json :=
  Json.obj
    (.cons ("Authorization") (.str ("Bearer admin-token"))
      (.cons ("Host") (.str ("evil.example"))
        (.cons ("User-Agent") (.str ("spoof/1.0"))
          (.cons ("X-Custom") (.str ("yes"))
            (.cons ("X-Num") (.num 7) .nil)))))

/-- A concrete attempt-1 delivery task carrying `headersExample`. -/
def taskExample : DeliveryTask :=
  { webhook_id := 1
    webhook_url := "https://example.com/hook"
    webhook_secret := "whsec_example"
    webhook_headers := some headersExample
    payload :=
      { id := "evt-uuid-1"
        event_type := "ticket.created"
        timestamp := 100
        data := Json.obj (.cons ("ticket_id") (.num 7) .nil) }
    attempt := 1 }

/-! ## Header construction: claims C1 and C10 -/

/-- The custom header list of an object holds a pair exactly when the
object has that key bound to that string. -/
theorem mem_customHeaderList : (o : JsonObject) → (k v : String) →
    ((k, v) ∈ customHeaderList o ↔ (k, Json.str v) ∈ o.toList)
  | .nil, k, v => by simp [customHeaderList, JsonObject.toList]
  | .cons key val t, k, v => by
      have ih := mem_customHeaderList t k v
      cases val <;>
        simp [customHeaderList, JsonObject.toList, ih, Prod.ext_iff]

/-- C1 counterexample: the worker forwards the Authorization, Host and
User-Agent entries of the webhook header configuration into the outgoing
request verbatim; no key is stripped, refuting the claim that these three
are never taken from the configured map. -/
theorem reserved_headers_forwarded_cex :
    ("Authorization", "Bearer admin-token") ∈ deliverRequestHeaders taskExample
    ∧ ("Host", "evil.example") ∈ deliverRequestHeaders taskExample
    ∧ ("User-Agent", "spoof/1.0") ∈ deliverRequestHeaders taskExample := by
  refine ⟨?_, ?_, ?_⟩ <;>
    · simp only [deliverRequestHeaders, buildRequestHeaders, List.mem_append]
      exact Or.inr (by decide)

/-- C1 (amended): every custom header entry of the webhook configuration
whose value is a JSON string is included in the outgoing POST built by the
worker, whatever its key; in particular Host, User-Agent and Authorization
entries are forwarded rather than stripped. -/
theorem custom_headers_forwarded_unfiltered (task : DeliveryTask) (hm : Json) (k v : String)
    (hh : task.webhook_headers = some hm) (hmem : (k, Json.str v) ∈ hm.entries) :
    (k, v) ∈ deliverRequestHeaders task := by
  have hcust : (k, v) ∈ customHeaders task.webhook_headers := by
    rw [hh]
    cases hm <;> simp [Json.entries] at hmem ⊢
    case obj o => exact (mem_customHeaderList o k v).mpr hmem
  simp only [deliverRequestHeaders, buildRequestHeaders, List.mem_append]
  exact Or.inr hcust

/-- C1 amended witness: the amended statement evaluated on the concrete
task carrying an Authorization header. -/
theorem custom_headers_forwarded_unfiltered_witness :
    taskExample.webhook_headers = some headersExample
    ∧ (("Authorization"), Json.str ("Bearer admin-token")) ∈ headersExample.entries
    ∧ ("Authorization", "Bearer admin-token") ∈ deliverRequestHeaders taskExample :=
  ⟨rfl, by decide,
    custom_headers_forwarded_unfiltered taskExample headersExample
      ("Authorization") ("Bearer admin-token") rfl (by decide)⟩

/-- C10: the headers added from the webhook configuration are exactly the
top-level object entries whose values are JSON strings; entries with
non-string values are skipped, and a configuration that is not a JSON
object (or is absent) contributes no headers. -/
theorem custom_headers_string_entries_only (hm : Json) (k v : String) :
    ((k, v) ∈ customHeaders (some hm) ↔ (k, Json.str v) ∈ hm.entries)
    ∧ (hm.isObj = false → customHeaders (some hm) = [])
    ∧ customHeaders none = [] := by
  refine ⟨?_, ?_, rfl⟩
  · cases hm <;> simp [customHeaders, Json.entries]
    case obj o => exact mem_customHeaderList o k v
  · cases hm <;> simp [customHeaders, Json.isObj]

/-- C10 witness: the characterization evaluated on the concrete header
configuration and on a non-object value. -/
theorem custom_headers_string_entries_only_witness :
    (("X-Custom", "yes") ∈ customHeaders (some headersExample)
      ↔ (("X-Custom"), Json.str ("yes")) ∈ headersExample.entries)
    ∧ customHeaders (some (Json.num 7)) = [] :=
  ⟨(custom_headers_string_entries_only headersExample ("X-Custom") ("yes")).1,
   (custom_headers_string_entries_only (Json.num 7) ("a") ("b")).2.1 (by decide)⟩

/-! ## Backoff: claim C6 -/

/-- C6: for a failed attempt `a` with `1 ≤ a < 5` and any random draw, the
computed delay lies between the base `2 ^ (a - 1)` and
`min (1.5 * base) 3600` (stated with both sides doubled to stay in the
naturals), the jitter lies in `[0, base / 2]`, and the failure handler
schedules the next retry at `now + delay`. -/
theorem retry_backoff_bounds (attempt : Int) (rand now : Nat) (w : Webhook)
    (status : Int) (body : Option String) (dur : Int) (err : Option String)
    (h1 : 1 ≤ attempt) (h5 : attempt < 5) :
    INITIAL_RETRY_DELAY_SECS * 2 ^ (attempt - 1).toNat ≤ retryDelaySecs attempt rand
    ∧ 2 * retryDelaySecs attempt rand
        ≤ 3 * (INITIAL_RETRY_DELAY_SECS * 2 ^ (attempt - 1).toNat)
    ∧ retryDelaySecs attempt rand ≤ MAX_RETRY_DELAY_SECS
    ∧ rand % (INITIAL_RETRY_DELAY_SECS * 2 ^ (attempt - 1).toNat / 2 + 1)
        ≤ INITIAL_RETRY_DELAY_SECS * 2 ^ (attempt - 1).toNat / 2
    ∧ (handle_failure w attempt status body dur err now rand).1.next_retry_at
        = some (some (now + retryDelaySecs attempt rand)) := by
  have hk : (attempt - 1).toNat ≤ 3 := by omega
  have hbase : INITIAL_RETRY_DELAY_SECS * 2 ^ (attempt - 1).toNat ≤ 8 := by
    have : (2 : Nat) ^ (attempt - 1).toNat ≤ 2 ^ 3 :=
      Nat.pow_le_pow_right (by norm_num) hk
    simpa [INITIAL_RETRY_DELAY_SECS] using this
  set base := INITIAL_RETRY_DELAY_SECS * 2 ^ (attempt - 1).toNat with hbdef
  have hjit : rand % (base / 2 + 1) ≤ base / 2 := by
    have := Nat.mod_lt rand (show 0 < base / 2 + 1 by omega)
    omega
  have hdelay : retryDelaySecs attempt rand = min (base + rand % (base / 2 + 1)) 3600 := by
    simp [retryDelaySecs, MAX_RETRY_DELAY_SECS, hbdef]
  refine ⟨?_, ?_, ?_, hjit, ?_⟩
  · rw [hdelay]; omega
  · rw [hdelay]; omega
  · rw [hdelay]; simp [MAX_RETRY_DELAY_SECS]
  · have hlt : attempt < MAX_RETRIES := by simpa [MAX_RETRIES] using h5
    simp [handle_failure, hlt]

/-- C6 witness: the bounds evaluated at attempt 3 with a concrete random
draw. -/
theorem retry_backoff_bounds_witness :
    (1 : Int) ≤ 3 ∧ (3 : Int) < 5
    ∧ INITIAL_RETRY_DELAY_SECS * 2 ^ ((3 : Int) - 1).toNat ≤ retryDelaySecs 3 12345 :=
  ⟨by decide, by decide,
    (retry_backoff_bounds 3 12345 1000 wExample 500 none 10 none
      (by decide) (by decide)).1⟩

/-! ## Pending retries: claims C7 and C5 -/

/-- Membership in an insertion is membership in the inserted element or the
original list. -/
theorem mem_insertByRetryKey {x d : WebhookDelivery} {l : List WebhookDelivery} :
    x ∈ insertByRetryKey d l ↔ x = d ∨ x ∈ l := by
  induction l with
  | nil => simp [insertByRetryKey]
  | cons y ys ih =>
      by_cases h : retryKey d ≤ retryKey y
      · simp [insertByRetryKey, h]
      · simp [insertByRetryKey, h, ih]
        tauto

/-- Sorting by retry key preserves membership. -/
theorem mem_sortByRetryKey {x : WebhookDelivery} {l : List WebhookDelivery} :
    x ∈ sortByRetryKey l ↔ x ∈ l := by
  induction l with
  | nil => simp [sortByRetryKey]
  | cons y ys ih => simp [sortByRetryKey, mem_insertByRetryKey, ih]

/-- Inserting into a list sorted ascending by retry key keeps it sorted. -/
theorem pairwise_insertByRetryKey {d : WebhookDelivery} {l : List WebhookDelivery}
    (h : l.Pairwise (fun a b => retryKey a ≤ retryKey b)) :
    (insertByRetryKey d l).Pairwise (fun a b => retryKey a ≤ retryKey b) := by
  induction l with
  | nil => simp [insertByRetryKey]
  | cons y ys ih =>
      rcases List.pairwise_cons.mp h with ⟨hy, hys⟩
      simp only [insertByRetryKey]
      by_cases hd : retryKey d ≤ retryKey y
      · rw [if_pos hd]
        refine List.pairwise_cons.mpr ⟨?_, h⟩
        intro z hz
        rcases List.mem_cons.mp hz with rfl | hz2
        · exact hd
        · exact le_trans hd (hy z hz2)
      · rw [if_neg hd]
        refine List.pairwise_cons.mpr ⟨?_, ih hys⟩
        intro z hz
        rcases mem_insertByRetryKey.mp hz with rfl | hz2
        · exact le_of_not_le hd
        · exact hy z hz2

/-- The retry-key sort produces a list sorted ascending by retry key. -/
theorem sorted_sortByRetryKey (l : List WebhookDelivery) :
    (sortByRetryKey l).Pairwise (fun a b => retryKey a ≤ retryKey b) := by
  induction l with
  | nil => simp [sortByRetryKey]
  | cons y ys ih => exact pairwise_insertByRetryKey ih

/-- Every row the pending-retries query returns comes from the store, is
undelivered, and has a retry time that is set and has passed. -/
theorem pending_retries_sound (db : List WebhookDelivery) (now : Nat)
    (d : WebhookDelivery) (hd : d ∈ get_pending_retries db now) :
    d ∈ db ∧ d.delivered_at = none ∧ ∃ u, d.next_retry_at = some u ∧ u ≤ now := by
  have hmem : d ∈ sortByRetryKey (db.filter (fun d =>
      d.delivered_at.isNone && d.next_retry_at.isSome && decide (retryKey d ≤ now))) :=
    List.take_subset _ _ hd
  have hf := mem_sortByRetryKey.mp hmem
  rcases List.mem_filter.mp hf with ⟨hdb, hp⟩
  simp only [Bool.and_eq_true, decide_eq_true_eq, Option.isNone_iff_eq_none,
    Option.isSome_iff_exists] at hp
  rcases hp with ⟨⟨h1, u, h2⟩, h3⟩
  refine ⟨hdb, h1, u, h2, ?_⟩
  have : retryKey d = u := by simp [retryKey, h2]
  omega

/-- C7: the pending-retries query returns only rows that are undelivered
with a set retry time at or before the given instant, returns at most 100
rows, and returns them ordered ascending by retry time. -/
theorem get_pending_retries_spec (db : List WebhookDelivery) (now : Nat)
    (d : WebhookDelivery) (hd : d ∈ get_pending_retries db now) :
    (d ∈ db ∧ d.delivered_at = none ∧ ∃ u, d.next_retry_at = some u ∧ u ≤ now)
    ∧ (get_pending_retries db now).length ≤ 100
    ∧ (get_pending_retries db now).Pairwise (fun a b => retryKey a ≤ retryKey b) := by
  refine ⟨pending_retries_sound db now d hd, ?_, ?_⟩
  · exact List.length_take_le 100 _
  · exact (sorted_sortByRetryKey _).sublist (List.take_sublist _ _)

/-- A concrete undelivered row with a passed retry time. -/
def pendingRowExample : WebhookDelivery :=
  { id := 41
    uuid := "row-uuid-41"
    webhook_id := 1
    event_type := "ticket.created"
    payload := Json.null
    request_headers := none
    attempt_number := 1
    response_status := some 500
    response_body := none
    duration_ms := some 3
    error_message := none
    delivered_at := none
    next_retry_at := some 5 }

/-- C7 witness: the query properties evaluated on a one-row store. -/
theorem get_pending_retries_spec_witness :
    pendingRowExample ∈ get_pending_retries [pendingRowExample] 10
    ∧ pendingRowExample ∈ [pendingRowExample]
    ∧ pendingRowExample.delivered_at = none :=
  ⟨by decide, ((get_pending_retries_spec [pendingRowExample] 10 pendingRowExample
      (by decide)).1).1,
   ((get_pending_retries_spec [pendingRowExample] 10 pendingRowExample
      (by decide)).1).2.1⟩

/-- C5: a failed attempt at the attempt cap leaves its delivery row with no
delivery time and no retry time, and such a row is never returned by the
pending-retries query, so the chain is never rescheduled. -/
theorem exhausted_attempt_terminal (task : DeliveryTask) (w : Webhook) (result : HttpResult)
    (dur : Int) (now rand : Nat) (rowId : Int) (rowUuid : String)
    (db : List WebhookDelivery) (t : Nat)
    (hatt : task.attempt = MAX_RETRIES) (hfail : result.isSuccess = false) :
    (deliverEffect task w rowId rowUuid result dur now rand).1.delivered_at = none
    ∧ (deliverEffect task w rowId rowUuid result dur now rand).1.next_retry_at = none
    ∧ (deliverEffect task w rowId rowUuid result dur now rand).1 ∉ get_pending_retries db t := by
  have hrow : (deliverEffect task w rowId rowUuid result dur now rand).1.delivered_at = none
      ∧ (deliverEffect task w rowId rowUuid result dur now rand).1.next_retry_at = none := by
    cases result with
    | response status body =>
        have hns : ¬(200 ≤ status ∧ status < 300) := by
          simpa [HttpResult.isSuccess] using hfail
        have hcap : ¬(task.attempt < MAX_RETRIES) := by rw [hatt]; omega
        constructor <;>
          simp [deliverEffect, deliverUpdates, hns, handle_failure, hcap,
            applyDeliveryUpdate, create_delivery]
    | transportError e =>
        have hcap : ¬(task.attempt < MAX_RETRIES) := by rw [hatt]; omega
        constructor <;>
          simp [deliverEffect, deliverUpdates, handle_failure, hcap,
            applyDeliveryUpdate, create_delivery]
  refine ⟨hrow.1, hrow.2, ?_⟩
  intro hmem
  rcases (pending_retries_sound db t _ hmem).2.2 with ⟨u, hu, _⟩
  rw [hrow.2] at hu
  cases hu

/-- C5 witness: a concrete fifth failed attempt is terminal. -/
theorem exhausted_attempt_terminal_witness :
    ({ taskExample with attempt := 5 } : DeliveryTask).attempt = MAX_RETRIES
    ∧ (HttpResult.response 500 none).isSuccess = false
    ∧ (deliverEffect { taskExample with attempt := 5 } wExample 41 ("row-uuid-41")
        (.response 500 none) 3 100 0).1.next_retry_at = none :=
  ⟨by decide, by decide,
    (exhausted_attempt_terminal { taskExample with attempt := 5 } wExample
      (.response 500 none) 3 100 0 41 ("row-uuid-41") [] 0
      (by decide) (by decide)).2.1⟩

/-! ## Success path: claim C4 -/

/-- C4: a response with status inside [200, 300) makes the worker mark the
delivery row with the status, the response body, the duration, a delivery
time of now and no retry time, and reset the webhook health: last trigger
time now, failure count zero, no disabled reason, enabled flag untouched;
a response with any status outside [200, 300) is classified as a failure
and handed to the failure handler. -/
theorem success_path_updates (task : DeliveryTask) (w : Webhook) (status : Int)
    (body : Option String) (dur : Int) (now rand : Nat) (rowId : Int) (rowUuid : String)
    (h2xx : 200 ≤ status ∧ status < 300) :
    (deliverEffect task w rowId rowUuid (.response status body) dur now rand).1.response_status
        = some status
    ∧ (deliverEffect task w rowId rowUuid (.response status body) dur now rand).1.response_body
        = body
    ∧ (deliverEffect task w rowId rowUuid (.response status body) dur now rand).1.duration_ms
        = some dur
    ∧ (deliverEffect task w rowId rowUuid (.response status body) dur now rand).1.delivered_at
        = some now
    ∧ (deliverEffect task w rowId rowUuid (.response status body) dur now rand).1.next_retry_at
        = none
    ∧ (deliverEffect task w rowId rowUuid (.response status body) dur now rand).2.last_triggered_at
        = some now
    ∧ (deliverEffect task w rowId rowUuid (.response status body) dur now rand).2.failure_count
        = 0
    ∧ (deliverEffect task w rowId rowUuid (.response status body) dur now rand).2.disabled_reason
        = none
    ∧ (deliverEffect task w rowId rowUuid (.response status body) dur now rand).2.enabled
        = w.enabled
    ∧ (∀ s2 : Int, ¬(200 ≤ s2 ∧ s2 < 300) →
        deliverUpdates task w (.response s2 body) dur now rand
          = handle_failure w task.attempt s2 body dur none now rand) := by
  refine ⟨?_, ?_, ?_, ?_, ?_, ?_, ?_, ?_, ?_, fun s2 hs2 => by simp [deliverUpdates, hs2]⟩ <;>
    cases body <;>
      simp [deliverEffect, deliverUpdates, h2xx, handle_success,
        applyDeliveryUpdate, applyWebhookUpdate, create_delivery]

/-! ## Failure counting and auto-disable: claim C3 -/

/-- Field-level description of the webhook changeset applied after one
failed attempt. -/
theorem failure_step_fields (w : Webhook) (now rand : Nat) (attempt status : Int)
    (body : Option String) (dur : Int) (err : Option String) :
    (webhookAfterAttempt w (.failure now rand attempt status body dur err)).failure_count
        = w.failure_count + 1
    ∧ (webhookAfterAttempt w (.failure now rand attempt status body dur err)).enabled
        = (if w.failure_count + 1 ≥ AUTO_DISABLE_THRESHOLD then false else w.enabled)
    ∧ (w.failure_count + 1 ≥ AUTO_DISABLE_THRESHOLD →
        (webhookAfterAttempt w (.failure now rand attempt status body dur err)).disabled_reason
          = some ("Auto-disabled after " ++ toString (w.failure_count + 1)
              ++ " consecutive failures"))
    ∧ (¬ w.failure_count + 1 ≥ AUTO_DISABLE_THRESHOLD →
        (webhookAfterAttempt w (.failure now rand attempt status body dur err)).disabled_reason
          = w.disabled_reason) := by
  by_cases hthr : w.failure_count + 1 ≥ AUTO_DISABLE_THRESHOLD <;>
    simp [webhookAfterAttempt, handle_failure, applyWebhookUpdate, hthr]

/-- Field-level description of the webhook changeset applied after one
successful attempt. -/
theorem success_step_fields (w : Webhook) (now : Nat) (status : Int)
    (body : Option String) (dur : Int) :
    (webhookAfterAttempt w (.success now status body dur)).failure_count = 0
    ∧ (webhookAfterAttempt w (.success now status body dur)).enabled = w.enabled
    ∧ (webhookAfterAttempt w (.success now status body dur)).disabled_reason = none
    ∧ (webhookAfterAttempt w (.success now status body dur)).last_triggered_at = some now := by
  simp [webhookAfterAttempt, handle_success, applyWebhookUpdate]

/-- Invariant of the health machine: while a webhook is enabled its failure
count stays between 0 and one below the auto-disable threshold. -/
def EnabledInv (w : Webhook) : Prop :=
  w.enabled = true → 0 ≤ w.failure_count ∧ w.failure_count ≤ 9

/-- One recorded attempt preserves the enabled-count invariant. -/
theorem enabledInv_step (w : Webhook) (o : AttemptOutcome) (h : EnabledInv w) :
    EnabledInv (webhookAfterAttempt w o) := by
  cases o with
  | success now status body dur =>
      intro _
      rw [(success_step_fields w now status body dur).1]
      omega
  | failure now rand attempt status body dur err =>
      intro he2
      rcases failure_step_fields w now rand attempt status body dur err with ⟨hc, hen, _, _⟩
      rw [hc]
      by_cases hthr : w.failure_count + 1 ≥ AUTO_DISABLE_THRESHOLD
      · rw [hen, if_pos hthr] at he2
        cases he2
      · rw [hen, if_neg hthr] at he2
        rcases h he2 with ⟨hl, _⟩
        simp [AUTO_DISABLE_THRESHOLD] at hthr
        omega

/-- The enabled-count invariant holds along any run of recorded attempts. -/
theorem enabledInv_run (w0 : Webhook) (os : List AttemptOutcome) (h : EnabledInv w0) :
    EnabledInv (runAttempts w0 os) := by
  induction os generalizing w0 with
  | nil => exact h
  | cons o os ih =>
      simp only [runAttempts, List.foldl_cons]
      exact ih _ (enabledInv_step w0 o h)

/-- A disabled webhook is never re-enabled by the worker. -/
theorem step_keeps_disabled (w : Webhook) (o : AttemptOutcome) (h : w.enabled = false) :
    (webhookAfterAttempt w o).enabled = false := by
  cases o with
  | success now status body dur =>
      rw [(success_step_fields w now status body dur).2.1, h]
  | failure now rand attempt status body dur err =>
      rcases failure_step_fields w now rand attempt status body dur err with ⟨_, hen, _, _⟩
      by_cases hthr : w.failure_count + 1 ≥ AUTO_DISABLE_THRESHOLD
      · rw [hen, if_pos hthr]
      · rw [hen, if_neg hthr, h]

/-- C3: starting from an enabled webhook with a zero failure count, after
any run of recorded attempts each failed attempt raises the failure count
by exactly one; the enabled flag flips to false exactly when a failed
attempt brings the count to the auto-disable threshold of 10, at which
point the disabled reason is the non-empty auto-disable message; and an
attempt recorded against a disabled webhook never re-enables it. -/
theorem webhook_failure_accounting (w0 : Webhook) (os : List AttemptOutcome)
    (o : AttemptOutcome) (h0 : w0.failure_count = 0) (he : w0.enabled = true) :
    (o.isFailure = true →
      (webhookAfterAttempt (runAttempts w0 os) o).failure_count
        = (runAttempts w0 os).failure_count + 1)
    ∧ ((runAttempts w0 os).enabled = true →
        ((webhookAfterAttempt (runAttempts w0 os) o).enabled = false
          ↔ o.isFailure = true
            ∧ (webhookAfterAttempt (runAttempts w0 os) o).failure_count
                = AUTO_DISABLE_THRESHOLD))
    ∧ ((runAttempts w0 os).enabled = true →
        (webhookAfterAttempt (runAttempts w0 os) o).enabled = false →
        (webhookAfterAttempt (runAttempts w0 os) o).disabled_reason
          = some ("Auto-disabled after 10 consecutive failures")
        ∧ ("Auto-disabled after 10 consecutive failures" : String) ≠ "")
    ∧ ((runAttempts w0 os).enabled = false →
        (webhookAfterAttempt (runAttempts w0 os) o).enabled = false) := by
  have hinv : EnabledInv (runAttempts w0 os) :=
    enabledInv_run w0 os (by intro _; rw [h0]; omega)
  cases o with
  | success now status body dur =>
      rcases success_step_fields (runAttempts w0 os) now status body dur with
        ⟨hc, hen, _, _⟩
      refine ⟨?_, ?_, ?_, ?_⟩
      · intro h
        simp [AttemptOutcome.isFailure] at h
      · intro hwen
        rw [hen, hwen]
        simp [AttemptOutcome.isFailure]
      · intro hwen hdis
        rw [hen, hwen] at hdis
        cases hdis
      · intro hwd
        rw [hen, hwd]
  | failure now rand attempt status body dur err =>
      rcases failure_step_fields (runAttempts w0 os) now rand attempt status body dur err with
        ⟨hc, hen, hr1, _⟩
      refine ⟨fun _ => hc, ?_, ?_, ?_⟩
      · intro hwen
        rcases hinv hwen with ⟨hl, hu⟩
        constructor
        · intro hdis
          refine ⟨rfl, ?_⟩
          by_cases hthr : (runAttempts w0 os).failure_count + 1 ≥ AUTO_DISABLE_THRESHOLD
          · rw [hc]
            simp [AUTO_DISABLE_THRESHOLD] at hthr ⊢
            omega
          · rw [hen, if_neg hthr, hwen] at hdis
            cases hdis
        · rintro ⟨-, hcount⟩
          rw [hc] at hcount
          rw [hen, if_pos (by omega)]
      · intro hwen hdis
        rcases hinv hwen with ⟨hl, hu⟩
        have hthr : (runAttempts w0 os).failure_count + 1 ≥ AUTO_DISABLE_THRESHOLD := by
          by_contra hthr
          rw [hen, if_neg hthr, hwen] at hdis
          cases hdis
        have hten : (runAttempts w0 os).failure_count + 1 = (10 : Int) := by
          simp [AUTO_DISABLE_THRESHOLD] at hthr
          omega
        refine ⟨?_, by decide⟩
        rw [hr1 hthr, hten]
        decide
      · intro hwd
        exact step_keeps_disabled _ _ hwd

/-- A concrete failed attempt outcome. -/
def failOutcomeExample : AttemptOutcome := .failure 0 0 1 500 none 1 none

/-- Nine consecutive failed attempt outcomes. -/
def nineFailures : List AttemptOutcome := List.replicate 9 failOutcomeExample

/-- C3 witness: starting from the example webhook, the tenth consecutive
failure disables it with the auto-disable message. -/
theorem webhook_failure_accounting_witness :
    wExample.failure_count = 0 ∧ wExample.enabled = true
    ∧ (webhookAfterAttempt (runAttempts wExample nineFailures) failOutcomeExample).enabled
        = false
    ∧ (webhookAfterAttempt (runAttempts wExample nineFailures)
        failOutcomeExample).disabled_reason
        = some ("Auto-disabled after 10 consecutive failures") := by
  refine ⟨rfl, rfl, ?_, ?_⟩
  · exact ((webhook_failure_accounting wExample nineFailures failOutcomeExample rfl rfl).2.1
      (by decide)).mpr ⟨rfl, by decide⟩
  · exact ((webhook_failure_accounting wExample nineFailures failOutcomeExample rfl rfl).2.2.1
      (by decide) (by decide)).1

/-- C4 witness: the success path evaluated on a concrete 204 response. -/
theorem success_path_updates_witness :
    ((200 : Int) ≤ 204 ∧ (204 : Int) < 300)
    ∧ (deliverEffect taskExample wExample 41 ("row-uuid-41")
        (.response 204 (some ("ok"))) 12 50 0).1.delivered_at = some 50
    ∧ (deliverEffect taskExample wExample 41 ("row-uuid-41")
        (.response 204 (some ("ok"))) 12 50 0).2.failure_count = 0 :=
  ⟨by decide,
    (success_path_updates taskExample wExample 204 (some ("ok")) 12 50 0 41
      ("row-uuid-41") (by decide)).2.2.2.1,
    (success_path_updates taskExample wExample 204 (some ("ok")) 12 50 0 41
      ("row-uuid-41") (by decide)).2.2.2.2.2.2.1⟩

/-! ## Event filtering: claim C8 -/

/-- Two filters over the same list commute. -/
theorem filter_swap {α : Type _} (l : List α) (p q : α → Bool) :
    (l.filter p).filter q = (l.filter q).filter p := by
  induction l with
  | nil => rfl
  | cons x xs ih => by_cases hp : p x <;> by_cases hq : q x <;> simp [hp, hq, ih]

/-- Filtering the built tasks by webhook id is filtering the matched
webhooks by id first. -/
theorem filter_eventTasks (l : List Webhook) (p : WebhookPayload) (wid : Int) :
    (l.map (eventTaskFor p)).filter (fun t => t.webhook_id == wid)
      = (l.filter (fun x => x.id == wid)).map (eventTaskFor p) := by
  induction l with
  | nil => rfl
  | cons x xs ih => cases hx : (x.id == wid) <;> simp [eventTaskFor, hx, ih]

/-- Restricting the subscription query to one webhook id: when the store
holds exactly one row with that id, the query keeps it exactly when it is
enabled and subscribed. -/
theorem ge_filter_id (db : List Webhook) (w : Webhook) (et : String)
    (hid : db.filter (fun x => x.id == w.id) = [w]) :
    (get_webhooks_for_event db et).filter (fun x => x.id == w.id)
      = if w.enabled && w.events.contains (some et) then [w] else [] := by
  rw [get_webhooks_for_event, filter_swap, hid]
  by_cases h : (w.enabled && w.events.contains (some et)) = true
  · rw [if_pos h, List.filter_cons, if_pos h, List.filter_nil]
  · rw [if_neg h, List.filter_cons, if_neg h, List.filter_nil]

/-- C8: for a store holding exactly one webhook with the given id, enabled
and subscribed only to ticket creation, processing a ticket-created event
produces exactly one task for that webhook and every produced task carries
attempt 1; a comment-added event produces no task for it; and the three
internal events produce no tasks at all. -/
theorem process_event_subscription_filtering (ser : TicketEvent → Json) (db : List Webhook)
    (w : Webhook) (uid : String) (now : Nat)
    (hid : db.filter (fun x => x.id == w.id) = [w])
    (hen : w.enabled = true)
    (hev : w.events = [some ("ticket.created")]) :
    ((listenerTasks ser db uid now .TicketCreated).filter
        (fun t => t.webhook_id == w.id)).length = 1
    ∧ (∀ t, t ∈ listenerTasks ser db uid now .TicketCreated → t.attempt = 1)
    ∧ (listenerTasks ser db uid now .CommentAdded).filter
        (fun t => t.webhook_id == w.id) = []
    ∧ listenerTasks ser db uid now .Heartbeat = []
    ∧ listenerTasks ser db uid now .ViewerCountChanged = []
    ∧ listenerTasks ser db uid now .NotificationReceived = []
    ∧ WebhookEventType.from_sse_event .Heartbeat = none
    ∧ WebhookEventType.from_sse_event .ViewerCountChanged = none
    ∧ WebhookEventType.from_sse_event .NotificationReceived = none := by
  have hsub : (w.enabled && w.events.contains (some ("ticket.created"))) = true := by
    rw [hen, hev]; decide
  have hnsub : (w.enabled && w.events.contains (some ("comment.added"))) = false := by
    rw [hen, hev]; decide
  have hmemw : w ∈ get_webhooks_for_event db ("ticket.created") := by
    have hm : w ∈ (get_webhooks_for_event db ("ticket.created")).filter
        (fun x => x.id == w.id) := by
      rw [ge_filter_id db w _ hid, if_pos hsub]
      simp
    exact List.mem_of_mem_filter hm
  have hne : (get_webhooks_for_event db ("ticket.created")).isEmpty = false := by
    simp [List.isEmpty_iff, List.ne_nil_of_mem hmemw]
  refine ⟨?_, ?_, ?_, rfl, rfl, rfl, rfl, rfl, rfl⟩
  · simp only [listenerTasks, WebhookEventType.from_sse_event, process_event,
      WebhookEventType.as_str, hne, Bool.false_eq_true, if_false]
    rw [filter_eventTasks, ge_filter_id db w _ hid, if_pos hsub]
    rfl
  · intro t ht
    simp only [listenerTasks, WebhookEventType.from_sse_event, process_event,
      WebhookEventType.as_str, hne, Bool.false_eq_true, if_false] at ht
    rcases List.mem_map.mp ht with ⟨x, -, rfl⟩
    rfl
  · cases hcae : (get_webhooks_for_event db ("comment.added")).isEmpty with
    | true =>
        simp [listenerTasks, WebhookEventType.from_sse_event, process_event,
          WebhookEventType.as_str, hcae]
    | false =>
        simp only [listenerTasks, WebhookEventType.from_sse_event, process_event,
          WebhookEventType.as_str, hcae, Bool.false_eq_true, if_false]
        rw [filter_eventTasks, ge_filter_id db w _ hid, hnsub]
        rfl

/-- C8 witness: the filtering properties evaluated on a one-webhook
store. -/
theorem process_event_subscription_filtering_witness :
    [wExample].filter (fun x => x.id == wExample.id) = [wExample]
    ∧ wExample.enabled = true
    ∧ wExample.events = [some ("ticket.created")]
    ∧ ((listenerTasks (fun _ => Json.null) [wExample] ("uuid-1") 77 .TicketCreated).filter
        (fun t => t.webhook_id == wExample.id)).length = 1 :=
  ⟨by decide, rfl, rfl,
    (process_event_subscription_filtering (fun _ => Json.null) [wExample] wExample
      ("uuid-1") 77 (by decide) rfl rfl).1⟩

/-! ## Retry payload reuse: claim C2 -/

/-- The delivery row of the example task after a failed first attempt:
undelivered, with a retry time scheduled. -/
def failedRowExample : WebhookDelivery :=
  (deliverEffect taskExample wExample 41 ("row-uuid-41") (.response 500 none) 3 100 0).1

/-- C2 evaluation: on a one-row store the retry scheduler does build one
task with the attempt number incremented and the stored event type, but
its envelope is not the original one: the timestamp is the retry instant
rather than the captured one, the envelope id is the delivery-row uuid
rather than the original envelope id, and the data field is the whole
persisted envelope object (so each retry wraps the envelope one level
deeper) rather than the original data. -/
theorem retry_envelope_not_original :
    process_retries [wExample] [failedRowExample] 200
        = [makeRetryTask wExample failedRowExample 200]
    ∧ (makeRetryTask wExample failedRowExample 200).attempt
        = failedRowExample.attempt_number + 1
    ∧ (makeRetryTask wExample failedRowExample 200).payload.event_type
        = taskExample.payload.event_type
    ∧ (makeRetryTask wExample failedRowExample 200).payload ≠ taskExample.payload
    ∧ (makeRetryTask wExample failedRowExample 200).payload.timestamp
        ≠ taskExample.payload.timestamp
    ∧ (makeRetryTask wExample failedRowExample 200).payload.id ≠ taskExample.payload.id
    ∧ (makeRetryTask wExample failedRowExample 200).payload.data
        ≠ taskExample.payload.data
    ∧ (makeRetryTask wExample failedRowExample 200).payload.data
        = payloadToJson taskExample.payload := by
  decide

/-! ## Signature round trip and tamper detection: claim C9 -/

/-- Two equal lists have no differing position. -/
theorem zip_self_no_diff {α : Type _} [DecidableEq α] (l : List α) :
    ((l.zip l).filter (fun ab => decide (ab.1 ≠ ab.2))).length = 0 := by
  induction l with
  | nil => rfl
  | cons x xs ih => simpa [List.zip_cons_cons, List.filter_cons] using ih

/-- Two lists differ in exactly one position: same length, and exactly one
index where the entries disagree. -/
def OneByteDiff {α : Type _} [DecidableEq α] (xs ys : List α) : Prop :=
  xs.length = ys.length
  ∧ ((xs.zip ys).filter (fun ab => decide (ab.1 ≠ ab.2))).length = 1

instance oneByteDiffDecidable {α : Type _} [DecidableEq α] (xs ys : List α) :
    Decidable (OneByteDiff xs ys) := by
  unfold OneByteDiff
  exact inferInstance

/-- Lists differing in one position are unequal. -/
theorem OneByteDiff.ne {α : Type _} [DecidableEq α] {xs ys : List α}
    (h : OneByteDiff xs ys) : xs ≠ ys := by
  rintro rfl
  have h0 := zip_self_no_diff xs
  have h1 := h.2
  omega

/-- Every byte of a big-endian decomposition is below 256. -/
theorem toBytesBE_lt : ∀ (n v : Nat), ∀ b ∈ toBytesBE n v, b < 256 := by
  intro n
  induction n with
  | zero => intro v b hb; simp [toBytesBE] at hb
  | succ n ih =>
      intro v b hb
      rw [toBytesBE] at hb
      rcases List.mem_append.mp hb with h | h
      · exact ih _ b h
      · simp at h
        omega

/-- Every byte of a SHA-256 digest is below 256. -/
theorem sha256_bytes_lt (m : List Nat) : ∀ b ∈ sha256 m, b < 256 := by
  intro b hb
  rw [sha256] at hb
  rcases List.mem_flatMap.mp hb with ⟨w, -, hw⟩
  exact toBytesBE_lt 4 w b hw

/-- Every byte of an HMAC-SHA256 tag is below 256. -/
theorem hmac_bytes_lt (key msg : List Nat) : ∀ b ∈ hmacSha256 key msg, b < 256 := by
  intro b hb
  simp only [hmacSha256] at hb
  exact sha256_bytes_lt _ b hb

/-- The hexadecimal digit characters are distinct below 16. -/
theorem hexDigitChar_inj {a b : Nat} (ha : a < 16) (hb : b < 16)
    (h : hexDigitChar a = hexDigitChar b) : a = b := by
  have H : ∀ x : Fin 16, ∀ y : Fin 16, hexDigitChar x.1 = hexDigitChar y.1 → x = y := by
    decide
  exact congrArg Fin.val (H ⟨a, ha⟩ ⟨b, hb⟩ h)

/-- Hexadecimal rendering is injective on byte lists. -/
theorem hexChars_inj : ∀ (xs ys : List Nat), (∀ b ∈ xs, b < 256) → (∀ b ∈ ys, b < 256) →
    hexChars xs = hexChars ys → xs = ys
  | [], [], _, _, _ => rfl
  | [], _ :: _, _, _, h => by simp [hexChars] at h
  | _ :: _, [], _, _, h => by simp [hexChars] at h
  | x :: xs, y :: ys, hx, hy, h => by
      rw [hexChars, hexChars] at h
      injection h with h1 h23
      injection h23 with h2 h3
      have hxb : x < 256 := hx x (by simp)
      have hyb : y < 256 := hy y (by simp)
      have e1 : x / 16 = y / 16 := hexDigitChar_inj (by omega) (by omega) h1
      have e2 : x % 16 = y % 16 := hexDigitChar_inj (by omega) (by omega) h2
      have exy : x = y := by omega
      subst exy
      rw [hexChars_inj xs ys (fun b hb => hx b (by simp [hb]))
        (fun b hb => hy b (by simp [hb])) h3]

/-- Signatures differ whenever the underlying HMAC tags differ. -/
theorem sign_payload_ne (p1 s1 p2 s2 : List Nat)
    (h : hmacSha256 s1 p1 ≠ hmacSha256 s2 p2) :
    sign_payload p1 s1 ≠ sign_payload p2 s2 := by
  intro he
  apply h
  have hd := congrArg String.data he
  simp only [sign_payload, hexEncode, String.data_append] at hd
  exact hexChars_inj _ _ (hmac_bytes_lt s1 p1) (hmac_bytes_lt s2 p2)
    (List.append_cancel_left hd)

/-- C9: signing then verifying the same payload and secret succeeds for
every input; signing is deterministic; and verification fails for a
payload, secret or signature changed in one byte, where the payload and
secret cases carry the collision-freedom side condition on the HMAC
primitive at the changed input (the specification treats HMAC collisions
as cryptographically negligible and untested). -/
theorem sign_verify_roundtrip_and_tamper (p s p2 s2 : List Nat) (g2 : String)
    (hp : OneByteDiff p p2) (hs : OneByteDiff s s2)
    (hg : OneByteDiff (sign_payload p s).data g2.data)
    (hmp : hmacSha256 s p2 ≠ hmacSha256 s p)
    (hms : hmacSha256 s2 p ≠ hmacSha256 s p) :
    verify_signature p s (sign_payload p s) = true
    ∧ (∀ q t q2 t2 : List Nat, q = q2 → t = t2 → sign_payload q t = sign_payload q2 t2)
    ∧ verify_signature p2 s (sign_payload p s) = false
    ∧ verify_signature p s2 (sign_payload p s) = false
    ∧ verify_signature p s g2 = false := by
  have hpne : p ≠ p2 := hp.ne
  have hsne : s ≠ s2 := hs.ne
  refine ⟨?_, ?_, ?_, ?_, ?_⟩
  · simp [verify_signature]
  · intro q t q2 t2 h1 h2
    rw [h1, h2]
  · exact beq_eq_false_iff_ne.mpr (sign_payload_ne p2 s p s hmp)
  · exact beq_eq_false_iff_ne.mpr (sign_payload_ne p s2 p s (by simpa using hms))
  · simp only [verify_signature]
    apply beq_eq_false_iff_ne.mpr
    intro he
    exact hg.ne (congrArg String.data he)

/-- C9 witness: the round trip and the three tamper cases evaluated on
concrete bytes, with the real HMAC-SHA256 computed by the kernel. -/
theorem sign_verify_roundtrip_and_tamper_witness :
    OneByteDiff [1, 2, 3] ([1, 2, 9] : List Nat)
    ∧ verify_signature [1, 2, 3] [4, 5] (sign_payload [1, 2, 3] [4, 5]) = true
    ∧ verify_signature [1, 2, 9] [4, 5] (sign_payload [1, 2, 3] [4, 5]) = false
    ∧ verify_signature [1, 2, 3] [4, 7] (sign_payload [1, 2, 3] [4, 5]) = false
    ∧ verify_signature [1, 2, 3] [4, 5]
        ("sha256=be39548c748762d8f56d0aa06db5db1693df2cbee0a47b6d65976a0eea2e804b")
        = false := by
  have h := sign_verify_roundtrip_and_tamper [1, 2, 3] [4, 5] [1, 2, 9] [4, 7]
    ("sha256=be39548c748762d8f56d0aa06db5db1693df2cbee0a47b6d65976a0eea2e804b")
    (by decide) (by decide) (by decide) (by decide) (by decide)
  exact ⟨by decide, h.1, h.2.2.1, h.2.2.2.1, h.2.2.2.2⟩

end Nosdesk
